import Mathlib

/-!
Verification development for the TemperatureControl repository.

The Python sources `device_models.py`, `device_type.py` and
`connection_type.py` are shallowly embedded below:

* `GM3` — the gaussmeter's byte-level query/acknowledge protocol
  (`GM3.query`) and the fixed-point payload decoding step of
  `GM3.get_instantenous_data`.
* `SPD3303X` — the power supply's channel-limit setters and the
  socket query/command wrappers.
* `Heater`, `Oven` — the PID oven controller (`configure_pid`,
  `update_supply`, `set_temperature`).

Machine integers are modelled as `Nat`/`Int`; Python numbers that stay
exact (ints, and the limit values which are only compared and stored)
are modelled as `ℚ`.  Where the Python code computes with IEEE-754
binary64 floats (the `10 ** -e` magnitude of the decoder), the rounding
to the nearest representable dyadic rational is modelled explicitly by
`roundToDouble`.  Stateful code is explicit state passing; the unbounded
`while` retry loops take a fuel argument and return `Option`.
-/

namespace GM3

/-- The gaussmeter commands supported by `GM3.query`
(`qry_dict` in `device_models.py`): `ID_METER_PROP` (0x01),
`ID_METER_SETT` (0x02), `STREAM_DATA` (0x03), `RESET_TIME` (0x04). -/
inductive Command where
  | idMeterProp
  | idMeterSett
  | streamData
  | resetTime
  deriving DecidableEq, Repr

/-- The single-byte opcode of each command (`qry_dict`). -/
def Command.opcode : Command → ℕ
  | .idMeterProp => 0x01
  | .idMeterSett => 0x02
  | .streamData => 0x03
  | .resetTime => 0x04

/-- Fixed payload length of each command
(`number_of_bytes_dict`: 20, 20, 30, 31). -/
def Command.numberOfBytes : Command → ℕ
  | .idMeterProp => 20
  | .idMeterSett => 20
  | .streamData => 30
  | .resetTime => 31

/-- State of one gaussmeter exchange: the bytes the instrument will
return (in order), the frames written to it so far, and the
module-level `error_count` of `device_models.py` (one global counter,
modelled as a single component threaded through every query). -/
structure SerialState where
  inp : List ℕ
  log : List (List ℕ)
  errorCount : ℕ
  deriving DecidableEq, Repr

/-- `serial.Serial.read(n)`: take up to `n` bytes from the input. -/
def readBytes (n : ℕ) (s : SerialState) : List ℕ × SerialState :=
  (s.inp.take n, { s with inp := s.inp.drop n })

/-- `serial.Serial.write(frame)`: record the written frame. -/
def writeFrame (f : List ℕ) (s : SerialState) : SerialState :=
  { s with log := s.log ++ [f] }

/-- First phase of `GM3.query`: `while ack != b'\x08'` — write the
opcode repeated six times (`bytes.fromhex(qry * 6)`), read the
command's fixed-length payload, read one acknowledgment byte; if the
acknowledgment is not `0x08`, increment `error_count` and start the
same command over.  `fuel` bounds the unbounded Python loop. -/
def phase1 : ℕ → Command → SerialState → Option (List ℕ × SerialState)
  | 0, _, _ => none
  | fuel + 1, c, s =>
    let s1 := writeFrame (List.replicate 6 c.opcode) s
    let (r, s2) := readBytes c.numberOfBytes s1
    let (ackl, s3) := readBytes 1 s2
    if ackl = [0x08] then some (r, s3)
    else phase1 fuel c { s3 with errorCount := s3.errorCount + 1 }

/-- Second phase of `GM3.query` (multi-part commands only):
`while ack != b'\x07'` — write the continue opcode `0x08` repeated six
times (`bytes.fromhex('08' * 6)`), append the returned fixed-length
chunk to `r`, read one acknowledgment byte.  Entered with the phase-1
acknowledgment `0x08 ≠ 0x07`, so the loop body runs at least once. -/
def phase2 : ℕ → Command → List ℕ → SerialState → Option (List ℕ × SerialState)
  | 0, _, _, _ => none
  | fuel + 1, c, r, s =>
    let s1 := writeFrame (List.replicate 6 0x08) s
    let (chunk, s2) := readBytes c.numberOfBytes s1
    let (ackl, s3) := readBytes 1 s2
    if ackl = [0x07] then some (r ++ chunk, s3)
    else phase2 fuel c (r ++ chunk) s3

/-- `GM3.query`: phase 1 until acknowledged with `0x08`; the single-shot
commands `'03'`/`'04'` (`STREAM_DATA`, `RESET_TIME`) return the payload
immediately, the multi-part commands continue with phase 2. -/
def query (fuel : ℕ) (c : Command) (s : SerialState) :
    Option (List ℕ × SerialState) :=
  (phase1 fuel c s).bind fun rs =>
    if c = .streamData ∨ c = .resetTime then some rs
    else phase2 fuel c rs.1 rs.2

/-- A scripted phase-2 instrument response: each continuation chunk
followed by its acknowledgment byte, concatenated in order. -/
def contScript (chunks : List (List ℕ × ℕ)) : List ℕ :=
  (chunks.map fun p => p.1 ++ [p.2]).flatten

end GM3

/-! ### IEEE-754 binary64 model for the decoder

Python evaluates `10 ** (-e)` for `e ≥ 1` (and the subsequent
`int * float` product) in binary64 floating point.  `roundToDouble`
maps an exact rational to the nearest binary64-representable dyadic
rational (round to nearest, ties to even), for values in the normal,
non-overflowing range — which covers every value the decoder can
produce (magnitudes between `10 ^ (-7)` and `2 ^ 32`). -/

/-- Round a rational to the nearest integer, ties to even. -/
def roundHalfEven (x : ℚ) : ℤ :=
  let n := ⌊x⌋
  let r := x - n
  if r < 1 / 2 then n
  else if 1 / 2 < r then n + 1
  else if 2 ∣ n then n else n + 1

/-- The binary64 double nearest to a rational (normal range, round to
nearest, ties to even): scale the absolute value into a 53-bit
significand using its base-2 logarithm. -/
def roundToDouble (q : ℚ) : ℚ :=
  if q = 0 then 0
  else
    let e : ℤ := Int.log 2 |q|
    let m : ℤ := roundHalfEven (|q| * 2 ^ (52 - e))
    (if q < 0 then -1 else 1) * (m : ℚ) * 2 ^ (e - 52)

namespace GM3

/-- Python `10 ** (-e)`: exact integer `1` for `e = 0`, otherwise the
binary64 float nearest to `10 ^ (-e)` (`magnitude` in
`get_instantenous_data`). -/
def pyMagnitude (e : ℕ) : ℚ :=
  if e = 0 then 1 else roundToDouble ((10 : ℚ) ^ e)⁻¹

/-- The big-endian integer formed by four bytes (`bytes_3456 =
int(query_string[section_i + 4 : section_i + 12], 16)`). -/
def beBytes (b2 b3 b4 b5 : ℕ) : ℕ :=
  ((b2 * 256 + b3) * 256 + b4) * 256 + b5

/-- One 6-byte section's decoded value (`sign * digits * magnitude` in
`get_instantenous_data`): `b1` is byte 1 (0-indexed) of the section,
`d` the big-endian integer of bytes 2–5.  Sign from bit 3 of `b1`
(mask `0x08`), exponent from bits 0–2 (mask `0x07`).  For exponent 0
the Python product is pure integer arithmetic, hence exact; for
exponent ≥ 1 the product `int * float` rounds to binary64. -/
def sectionValue (b1 d : ℕ) : ℚ :=
  let sign : ℚ := if b1 &&& 0x08 ≠ 0 then -1 else 1
  let e := b1 &&& 0x07
  if e = 0 then sign * d
  else roundToDouble (sign * d * pyMagnitude e)

/-- The payload-decoding step of `GM3.get_instantenous_data`: the
payload's hex string is cut into `int(len / 2 / 6)` sections of six
bytes (integer truncation: trailing bytes of a misaligned payload are
ignored) and each section is decoded by `sectionValue`. -/
def decodeData (payload : List ℕ) : List ℚ :=
  (List.range (payload.length / 6)).map fun i =>
    let b1 := payload.getD (6 * i + 1) 0
    let d := beBytes (payload.getD (6 * i + 2) 0) (payload.getD (6 * i + 3) 0)
      (payload.getD (6 * i + 4) 0) (payload.getD (6 * i + 5) 0)
    sectionValue b1 d

end GM3

/-! ### SPD3303X power supply (`device_models.py`)

The limit setters compare Python values of different runtime types:
the new limit is a number, while the live set values
(`self.ch1_set_voltage` …) are the raw string replies of
`self._query('CH1:voltage?')` … (`_query` decodes the socket bytes with
UTF-8 and strips them, it never converts to `float`).  Python 3 raises
`TypeError` on an order comparison between a number and a `str`, so the
comparison is embedded as a fallible operation on tagged values. -/

/-- A Python runtime value as far as the limit setters see one:
a number or a string. -/
inductive PyVal where
  | num (q : ℚ)
  | str (s : String)
  deriving DecidableEq, Repr

/-- The Python exceptions the embedded fragments can raise. -/
inductive PyExn where
  | typeError
  | valueError
  deriving DecidableEq, Repr

/-- Python `a < b`: defined between two numbers or two strings, raises
`TypeError` between a number and a string. -/
def pyLt : PyVal → PyVal → Except PyExn Bool
  | .num a, .num b => .ok (decide (a < b))
  | .str a, .str b => .ok (decide (a < b))
  | _, _ => .error .typeError

namespace SPD3303X

/-- State of one `SPD3303X` instance plus its scripted instrument:
the four stored channel ceilings (`_ch1_voltage_limit` …), the hardware
maxima set in `__init__` (`_MAX_voltage_limit = 32`,
`_MAX_current_limit = 3.3`), the reply the instrument returns to each
query string, and the log of strings sent over the socket. -/
structure State where
  ch1_voltage_limit : ℚ
  ch1_current_limit : ℚ
  ch2_voltage_limit : ℚ
  ch2_current_limit : ℚ
  MAX_voltage_limit : ℚ
  MAX_current_limit : ℚ
  replyOf : String → String
  log : List String

/-- `SPD3303X._query` with the socket alive: send the query string and
return the (stripped, UTF-8 decoded) reply. -/
def queryDev (q : String) (s : State) : String × State :=
  (s.replyOf q, { s with log := s.log ++ [q] })

/-- `ch1_voltage_limit` setter: reject above the hardware maximum or
non-positive; otherwise compare the numeric `volts` against the string
reply of `CH1:voltage?` (raising `TypeError`); otherwise store the new
ceiling.  Result: the state after the call, paired with the exception
that propagated, if any. -/
def set_ch1_voltage_limit (volts : ℚ) (s : State) : State × Option PyExn :=
  if volts > s.MAX_voltage_limit ∨ volts ≤ 0 then (s, none)
  else
    let (reply, s1) := queryDev "CH1:voltage?" s
    match pyLt (.num volts) (.str reply) with
    | .error e => (s1, some e)
    | .ok true => (s1, none)
    | .ok false => ({ s1 with ch1_voltage_limit := volts }, none)

/-- `ch1_current_limit` setter (symmetric, against `CH1:current?`). -/
def set_ch1_current_limit (amps : ℚ) (s : State) : State × Option PyExn :=
  if amps > s.MAX_current_limit ∨ amps ≤ 0 then (s, none)
  else
    let (reply, s1) := queryDev "CH1:current?" s
    match pyLt (.num amps) (.str reply) with
    | .error e => (s1, some e)
    | .ok true => (s1, none)
    | .ok false => ({ s1 with ch1_current_limit := amps }, none)

/-- `ch2_voltage_limit` setter: as in the source, the live comparison
reads `CH2:voltage?` but the success branch assigns
`self._ch1_voltage_limit`. -/
def set_ch2_voltage_limit (volts : ℚ) (s : State) : State × Option PyExn :=
  if volts > s.MAX_voltage_limit ∨ volts ≤ 0 then (s, none)
  else
    let (reply, s1) := queryDev "CH2:voltage?" s
    match pyLt (.num volts) (.str reply) with
    | .error e => (s1, some e)
    | .ok true => (s1, none)
    | .ok false => ({ s1 with ch1_voltage_limit := volts }, none)

/-- `ch2_current_limit` setter: as in the source, the live comparison
reads `self.ch1_set_current`, i.e. queries `CH1:current?`; the success
branch assigns `self._ch2_current_limit`. -/
def set_ch2_current_limit (amps : ℚ) (s : State) : State × Option PyExn :=
  if amps > s.MAX_current_limit ∨ amps ≤ 0 then (s, none)
  else
    let (reply, s1) := queryDev "CH1:current?" s
    match pyLt (.num amps) (.str reply) with
    | .error e => (s1, some e)
    | .ok true => (s1, none)
    | .ok false => ({ s1 with ch2_current_limit := amps }, none)

/-- Outcome of one socket exchange: the instrument answered, or the
socket raised `OSError`. -/
inductive Transport where
  | ok (reply : String)
  | osError
  deriving DecidableEq, Repr

/-- Return value of `SPD3303X._query`: on success the decoded, stripped
reply string; on `OSError` the handler prints and the method falls off
the end, returning Python `None` (modelled as `Option.none`). -/
def queryResult (t : Transport) : Option String :=
  match t with
  | .ok reply => some reply
  | .osError => none

/-- Return value of `SPD3303X._command`: on success it returns
`socket.sendall(...)`, which is Python `None`; on `OSError` the handler
prints and the method returns `None` as well. -/
def commandResult (t : Transport) : Option String :=
  match t with
  | .ok _ => none
  | .osError => none

end SPD3303X

/-- Concrete `SPD3303X` instance used to evaluate the limit setters:
fresh limits (32 V, 3.3 A), and an instrument whose live channel-1 set
voltage reads back `10.000`, channel-1 set current `3.000`, everything
else `0.000`. -/
def spdExample : SPD3303X.State where
  ch1_voltage_limit := 32
  ch1_current_limit := 33 / 10
  ch2_voltage_limit := 32
  ch2_current_limit := 33 / 10
  MAX_voltage_limit := 32
  MAX_current_limit := 33 / 10
  replyOf := fun q =>
    if q = "CH1:voltage?" then "10.000"
    else if q = "CH1:current?" then "3.000" else "0.000"
  log := []

/-! ### Heater and Oven (`device_type.py`)

`Oven` composes a power supply, a temperature DAQ and a `Heater`.  Its
PID object is `simple_pid.PID`, an external library not part of this
repository; its stepping behaviour is modelled from the spec.
`configure_pid` reads the supply channel's voltage limit through
`ps.get_voltage_limit(ch)`, also not defined under `src/`; it is
modelled from the spec as returning the channel's voltage ceiling. -/

/-- `Heater`: static safety descriptor
(`__init__` defaults: `MAX_temp=9999`, `MAX_volts=9999`,
`MAX_current=9999`, `resistance=20`). -/
structure Heater where
  MAX_temp : ℚ := 9999
  MAX_volts : ℚ := 9999
  MAX_current : ℚ := 9999
  resistance : ℚ := 20
  deriving DecidableEq, Repr

/-- Modelled from the spec: `simple_pid.PID` is an external library;
§4.5 describes its state as {setpoint, Kp, Ki, Kd, integral
accumulator, previous error, last sample time, output bounds} plus the
sample period and the previously returned output. -/
structure PID where
  Kp : ℚ
  Ki : ℚ
  Kd : ℚ
  setpoint : ℚ
  sample_time : ℚ
  outMin : ℚ
  outMax : ℚ
  integral : ℚ
  lastError : ℚ
  lastTime : ℚ
  lastOutput : ℚ
  deriving DecidableEq, Repr

/-- Clamp `x` into `[lo, hi]`. -/
def clamp (lo hi x : ℚ) : ℚ := max lo (min hi x)

/-- Modelled from the spec: `simple_pid.PID.__call__` (§4.5): if less
than `sample_time` elapsed since the last accepted sample, return the
previous output with the state unchanged; otherwise advance the
integral and derivative terms and return
`Kp*error + Ki*integral + Kd*derivative` clamped to the output
bounds. -/
def PID.step (p : PID) (measurement now : ℚ) : ℚ × PID :=
  let dt := now - p.lastTime
  if dt < p.sample_time then (p.lastOutput, p)
  else
    let error := p.setpoint - measurement
    let integral := p.integral + error * dt
    let derivative := if dt = 0 then 0 else (error - p.lastError) / dt
    let out := clamp p.outMin p.outMax
      (p.Kp * error + p.Ki * integral + p.Kd * derivative)
    (out, { p with integral := integral, lastError := error,
                   lastTime := now, lastOutput := out })

namespace Oven

/-- `Oven.configure_pid`: `Kp=1`, `Ki=0.03`, `Kd=0`, `setpoint=0`,
`sample_time=2`, output limits
`(0, min(heater.MAX_volts, ps.get_voltage_limit(ch)))`.
`voltage_limit` is the supply channel's voltage ceiling (modelled from
the spec: `ps.get_voltage_limit` is not defined under `src/`). -/
def configure_pid (heater : Heater) (voltage_limit : ℚ) : PID where
  Kp := 1
  Ki := 3 / 100
  Kd := 0
  setpoint := 0
  sample_time := 2
  outMin := 0
  outMax := min heater.MAX_volts voltage_limit
  integral := 0
  lastError := 0
  lastTime := 0
  lastOutput := 0

/-- `Oven.update_supply`: feed the current temperature to the PID and
pass the result to `ps.set_set_voltage`.  Returns the voltage handed to
the power sink together with the advanced PID state. -/
def update_supply (pid : PID) (current_temp now : ℚ) : ℚ × PID :=
  pid.step current_temp now

/-- `Oven.set_temperature` setter: raise `ValueError` (the spec's
`ControlError::AboveHeaterMaximum`) if `heater.MAX_temp < new_temp`,
leaving the PID untouched; otherwise assign `pid.setpoint`. -/
def set_temperature (heater : Heater) (pid : PID) (new_temp : ℚ) :
    Except PyExn PID :=
  if heater.MAX_temp < new_temp then .error .valueError
  else .ok { pid with setpoint := new_temp }

end Oven

/-! ## Helper lemmas -/

namespace GM3

theorem contScript_cons (p : List ℕ × ℕ) (l : List (List ℕ × ℕ)) :
    contScript (p :: l) = p.1 ++ p.2 :: contScript l := by
  simp [contScript]

/-- One successful phase-1 cycle: the opcode frame is written, the
payload and the `0x08` acknowledgment are consumed, and the payload is
returned with the error counter unchanged. -/
theorem phase1_success (c : Command) (payload rest : List ℕ) (s : SerialState)
    (fuel : ℕ) (hlen : payload.length = c.numberOfBytes)
    (hinp : s.inp = payload ++ 0x08 :: rest) :
    phase1 (fuel + 1) c s =
      some (payload, ⟨rest, s.log ++ [List.replicate 6 c.opcode], s.errorCount⟩) := by
  rw [phase1]
  simp only [writeFrame, readBytes, hinp]
  rw [List.take_left' hlen, List.drop_left' hlen]
  simp

/-- One failed phase-1 cycle: retry the same command from scratch with
the error counter incremented by exactly one. -/
theorem phase1_failure (c : Command) (payload : List ℕ) (a : ℕ)
    (rest : List ℕ) (s : SerialState) (fuel : ℕ)
    (hlen : payload.length = c.numberOfBytes) (ha : a ≠ 0x08)
    (hinp : s.inp = payload ++ a :: rest) :
    phase1 (fuel + 1) c s =
      phase1 fuel c ⟨rest, s.log ++ [List.replicate 6 c.opcode], s.errorCount + 1⟩ := by
  rw [phase1]
  simp only [writeFrame, readBytes, hinp]
  rw [List.take_left' hlen, List.drop_left' hlen]
  simp [ha]

/-- One phase-2 continuation cycle that is acknowledged with the final
code `0x07`: append the chunk and stop. -/
theorem phase2_last (c : Command) (hc : c.numberOfBytes = 20)
    (chunk rest r : List ℕ) (s : SerialState) (fuel : ℕ)
    (hlen : chunk.length = 20) (hinp : s.inp = chunk ++ 0x07 :: rest) :
    phase2 (fuel + 1) c r s =
      some (r ++ chunk, ⟨rest, s.log ++ [List.replicate 6 0x08], s.errorCount⟩) := by
  rw [phase2]
  simp only [writeFrame, readBytes, hinp]
  rw [hc, List.take_left' hlen, List.drop_left' hlen]
  simp

/-- One phase-2 continuation cycle with a non-final acknowledgment:
append the chunk and continue. -/
theorem phase2_cont (c : Command) (hc : c.numberOfBytes = 20)
    (chunk : List ℕ) (a : ℕ) (rest r : List ℕ) (s : SerialState) (fuel : ℕ)
    (hlen : chunk.length = 20) (ha : a ≠ 0x07) (hinp : s.inp = chunk ++ a :: rest) :
    phase2 (fuel + 1) c r s =
      phase2 fuel c (r ++ chunk)
        ⟨rest, s.log ++ [List.replicate 6 0x08], s.errorCount⟩ := by
  rw [phase2]
  simp only [writeFrame, readBytes, hinp]
  rw [hc, List.take_left' hlen, List.drop_left' hlen]
  simp [ha]

/-- The phase-2 continuation loop consumes the scripted chunks in
order, appending each to the accumulator, and stops on the `0x07`
acknowledgment. -/
theorem phase2_script (c : Command) (hc : c.numberOfBytes = 20)
    (init : List (List ℕ × ℕ)) :
    ∀ (last r rest : List ℕ) (s : SerialState) (fuel : ℕ),
    (∀ p ∈ init, (p.1).length = 20 ∧ p.2 ≠ 0x07) → last.length = 20 →
    s.inp = contScript init ++ (last ++ 0x07 :: rest) →
    phase2 (init.length + fuel + 1) c r s =
      some (r ++ (init.map Prod.fst).flatten ++ last,
        ⟨rest, s.log ++ List.replicate (init.length + 1) (List.replicate 6 0x08),
          s.errorCount⟩) := by
  induction init with
  | nil =>
    intro last r rest s fuel _ hlast hinp
    simp only [List.length_nil, Nat.zero_add]
    rw [phase2_last c hc last rest r s fuel hlast (by simpa [contScript] using hinp)]
    simp
  | cons p tl ih =>
    intro last r rest s fuel hinit hlast hinp
    rw [contScript_cons, List.append_assoc] at hinp
    have hp := hinit p (List.mem_cons_self p tl)
    have hfuel : (p :: tl).length + fuel + 1 = (tl.length + fuel + 1) + 1 := by
      simp [List.length_cons]
      omega
    rw [hfuel, phase2_cont c hc p.1 p.2 (contScript tl ++ (last ++ 0x07 :: rest))
      r s (tl.length + fuel + 1) hp.1 hp.2 hinp]
    rw [ih last (r ++ p.1) rest _ fuel (fun q hq => hinit q (List.mem_cons_of_mem p hq))
      hlast rfl]
    simp [List.append_assoc, List.replicate_succ]

/-- Phase 1 never decreases the error counter. -/
theorem phase1_errorCount_le :
    ∀ (fuel : ℕ) (c : Command) (s : SerialState) (r : List ℕ) (s' : SerialState),
      phase1 fuel c s = some (r, s') → s.errorCount ≤ s'.errorCount := by
  intro fuel
  induction fuel with
  | zero => intro c s r s' h; simp [phase1] at h
  | succ n ih =>
    intro c s r s' h
    rw [phase1] at h
    simp only [readBytes, writeFrame] at h
    split at h
    · simp only [Option.some.injEq, Prod.mk.injEq] at h
      rw [← h.2]
    · exact le_trans (Nat.le_succ _) (ih _ _ _ _ h)

/-- Phase 2 leaves the error counter untouched. -/
theorem phase2_errorCount_eq :
    ∀ (fuel : ℕ) (c : Command) (r : List ℕ) (s : SerialState)
      (r' : List ℕ) (s' : SerialState),
      phase2 fuel c r s = some (r', s') → s'.errorCount = s.errorCount := by
  intro fuel
  induction fuel with
  | zero => intro c r s r' s' h; simp [phase2] at h
  | succ n ih =>
    intro c r s r' s' h
    rw [phase2] at h
    simp only [readBytes, writeFrame] at h
    split at h
    · simp only [Option.some.injEq, Prod.mk.injEq] at h
      rw [← h.2]
    · exact (ih _ _ _ _ _ h).trans rfl

end GM3

/-- No dyadic rational (an integer times a power of two) equals
`1/10`: writing `m * 2 ^ k = 1/10` forces `10 * m * 2 ^ n = 1` or
`10 * m = 2 ^ (n + 1)`, and `5` does not divide a power of two. -/
theorem dyadic_ne_tenth (m k : ℤ) : (m : ℚ) * 2 ^ k ≠ 1 / 10 := by
  intro h
  rcases k with n | n
  · rw [Int.ofNat_eq_coe, zpow_natCast] at h
    have h2 : ((m * 2 ^ n * 10 : ℤ) : ℚ) = ((1 : ℤ) : ℚ) := by
      push_cast
      linarith
    have h3 : m * 2 ^ n * 10 = 1 := Int.cast_injective h2
    set t := m * 2 ^ n with ht
    omega
  · rw [zpow_negSucc] at h
    have hpow : ((2 : ℚ) ^ (n + 1)) ≠ 0 := by positivity
    have h2 : ((m * 10 : ℤ) : ℚ) = ((2 ^ (n + 1) : ℤ) : ℚ) := by
      push_cast
      field_simp at h
      linarith
    have h3 : m * 10 = 2 ^ (n + 1) := Int.cast_injective h2
    have h5 : (5 : ℤ) ∣ 2 ^ (n + 1) := ⟨m * 2, by linarith⟩
    have := Int.Prime.dvd_pow' (by norm_num) h5
    norm_num at this

/-- Every value `roundToDouble` produces is dyadic, hence never
exactly `1/10`. -/
theorem roundToDouble_ne_tenth (q : ℚ) : roundToDouble q ≠ 1 / 10 := by
  rw [roundToDouble]
  split
  · norm_num
  · split
    · intro h
      exact dyadic_ne_tenth (-(roundHalfEven (|q| * 2 ^ (52 - Int.log 2 |q|))))
        (Int.log 2 |q| - 52) (by push_cast; linarith)
    · intro h
      exact dyadic_ne_tenth (roundHalfEven (|q| * 2 ^ (52 - Int.log 2 |q|)))
        (Int.log 2 |q| - 52) (by linarith)

/-! ## Claims -/

/-- C1: for every PID state reachable on the tick path (output bounds
as installed by `configure_pid`, previous output within them) and every
temperature reading and time, the voltage `update_supply` hands to the
power sink is at least `0` and at most
`min heater.MAX_volts channel_voltage_limit`, and the stored output
stays within the same bounds — no unclamped PID output reaches the
supply, even at saturation. -/
theorem oven_update_supply_clamped (heater : Heater) (limit : ℚ) (p : PID)
    (temp now : ℚ)
    (hmin : p.outMin = 0) (hmax : p.outMax = min heater.MAX_volts limit)
    (hM : 0 ≤ min heater.MAX_volts limit)
    (hlo : 0 ≤ p.lastOutput) (hhi : p.lastOutput ≤ min heater.MAX_volts limit) :
    (0 ≤ (Oven.update_supply p temp now).1 ∧
      (Oven.update_supply p temp now).1 ≤ min heater.MAX_volts limit) ∧
    0 ≤ (Oven.update_supply p temp now).2.lastOutput ∧
    (Oven.update_supply p temp now).2.lastOutput ≤ min heater.MAX_volts limit := by
  rw [Oven.update_supply, PID.step]
  split
  · exact ⟨⟨hlo, hhi⟩, hlo, hhi⟩
  · simp only [clamp, hmin, hmax]
    exact ⟨⟨le_max_left _ _, max_le hM (min_le_left _ _)⟩,
      le_max_left _ _, max_le hM (min_le_left _ _)⟩

/-- C1 witness: the default heater with a 32 V channel limit, a freshly
configured PID driven far below setpoint, keeps the output in
`[0, min 9999 32]`. -/
theorem oven_update_supply_clamped_witness :
    (0 ≤ (Oven.update_supply (Oven.configure_pid ⟨9999, 9999, 9999, 20⟩ 32) 500 10).1 ∧
      (Oven.update_supply (Oven.configure_pid ⟨9999, 9999, 9999, 20⟩ 32) 500 10).1 ≤
        min (9999 : ℚ) 32) ∧
    0 ≤ (Oven.update_supply (Oven.configure_pid ⟨9999, 9999, 9999, 20⟩ 32) 500 10).2.lastOutput ∧
    (Oven.update_supply (Oven.configure_pid ⟨9999, 9999, 9999, 20⟩ 32) 500 10).2.lastOutput ≤
      min (9999 : ℚ) 32 :=
  oven_update_supply_clamped ⟨9999, 9999, 9999, 20⟩ 32
    (Oven.configure_pid ⟨9999, 9999, 9999, 20⟩ 32) 500 10 rfl rfl
    (le_min (by norm_num) (by norm_num)) le_rfl
    (le_min (by show (0 : ℚ) ≤ 9999; norm_num) (by show (0 : ℚ) ≤ 32; norm_num))

/-- C2 (amended): the decoding step produces exactly
`⌊payload.length / 6⌋` samples for every payload — `length / 6` when
the length is a multiple of 6; trailing bytes of a misaligned payload
are silently ignored and no error is ever raised. -/
theorem gm3_decode_sample_count (payload : List ℕ) :
    (GM3.decodeData payload).length = payload.length / 6 := by
  simp [GM3.decodeData]

/-- C2 counterexample: a 7-byte payload does not fail with a
misalignment error — it decodes to exactly one sample. -/
theorem gm3_decode_len7_no_failure : GM3.decodeData (List.replicate 7 0) = [0] := by
  norm_num [GM3.decodeData, GM3.sectionValue, GM3.beBytes, List.range_succ,
    List.range_zero, List.getD]

/-- C3 (amended): the sign/exponent/digit extraction is as specified,
and the decoded sample equals `sign × digits × 10^(−exponent)` exactly
whenever the exponent bits are 0 — in particular the section
`02 00 00 00 00 64` decodes to exactly `100`; for exponent bits 1–7 the
source computes `10 ** -e` in binary64 floating point, so the sample is
a dyadic rounding of the exact value. -/
theorem gm3_decode_exact_exp0 :
    (∀ b0 b1 b2 b3 b4 b5 : ℕ, b1 &&& 0x07 = 0 →
      GM3.decodeData [b0, b1, b2, b3, b4, b5] =
        [(if b1 &&& 0x08 ≠ 0 then (-1 : ℚ) else 1) * (GM3.beBytes b2 b3 b4 b5 : ℚ)]) ∧
    GM3.decodeData [0x02, 0x00, 0x00, 0x00, 0x00, 0x64] = [100] := by
  constructor
  · intro b0 b1 b2 b3 b4 b5 he
    simp [GM3.decodeData, GM3.sectionValue, List.range_succ, List.range_zero,
      List.getD, he]
  · norm_num [GM3.decodeData, GM3.sectionValue, GM3.beBytes, List.range_succ,
      List.range_zero, List.getD]

/-- C3 witness: a section with exponent bits 0 decodes exactly. -/
theorem gm3_decode_exact_exp0_witness :
    GM3.decodeData [0, 0, 0, 0, 0, 5] =
      [(if (0 : ℕ) &&& 0x08 ≠ 0 then (-1 : ℚ) else 1) * (GM3.beBytes 0 0 0 5 : ℚ)] :=
  gm3_decode_exact_exp0.1 0 0 0 0 0 5 rfl

/-- C3 counterexample: the section `00 01 00 00 00 01`
(sign +, exponent 1, digits 1) does not decode to the exact value
`1/10`: the decoded sample is a binary64 dyadic, and no dyadic rational
equals `1/10`. -/
theorem gm3_decode_not_exact :
    GM3.decodeData [0x00, 0x01, 0x00, 0x00, 0x00, 0x01] ≠ [(1 : ℚ) / 10] := by
  norm_num [GM3.decodeData, GM3.sectionValue, GM3.beBytes, List.range_succ,
    List.range_zero, List.getD]
  intro h
  exact roundToDouble_ne_tenth _ h

namespace GM3

/-- C4: with an immediate `0x08` acknowledgment, `query STREAM_DATA`
performs exactly one cycle — one 6-byte opcode write, one 30-byte
payload read, one 1-byte acknowledgment read — and returns that
payload with the error counter unchanged; with a first acknowledgment
other than `0x08` it increments the counter by one and re-issues the
same command from scratch. -/
theorem query_streamData_single_cycle :
    (∀ (payload rest : List ℕ) (s : SerialState) (fuel : ℕ),
      payload.length = 30 → s.inp = payload ++ 0x08 :: rest →
      query (fuel + 1) .streamData s =
        some (payload,
          ⟨rest, s.log ++ [List.replicate 6 0x03], s.errorCount⟩)) ∧
    ∀ (payload : List ℕ) (a : ℕ) (rest : List ℕ) (s : SerialState) (fuel : ℕ),
      payload.length = 30 → a ≠ 0x08 → s.inp = payload ++ a :: rest →
      query (fuel + 1) .streamData s =
        query fuel .streamData
          ⟨rest, s.log ++ [List.replicate 6 0x03], s.errorCount + 1⟩ := by
  constructor
  · intro payload rest s fuel hlen hinp
    simp [query, phase1_success .streamData payload rest s fuel hlen hinp,
      Command.opcode]
  · intro payload a rest s fuel hlen ha hinp
    simp only [query, phase1_failure .streamData payload a rest s fuel hlen ha hinp,
      Command.opcode]
    simp

/-- C4 witness: a 30-byte payload acknowledged with `0x08` is returned
after one cycle; acknowledged with `0x09`, the command restarts with
the counter incremented. -/
theorem query_streamData_single_cycle_witness :
    query 1 .streamData ⟨List.replicate 30 0 ++ 0x08 :: [], [], 0⟩ =
      some (List.replicate 30 0, ⟨[], [] ++ [List.replicate 6 0x03], 0⟩) ∧
    query 1 .streamData ⟨List.replicate 30 0 ++ 0x09 :: [], [], 0⟩ =
      query 0 .streamData ⟨[], [] ++ [List.replicate 6 0x03], 0 + 1⟩ :=
  ⟨query_streamData_single_cycle.1 (List.replicate 30 0) [] _ 0 (by simp) rfl,
   query_streamData_single_cycle.2 (List.replicate 30 0) 0x09 [] _ 0 (by simp)
     (by decide) rfl⟩

/-- C5: for the multi-part commands (`ID_METER_PROP`, `ID_METER_SETT`),
after the first `0x08` acknowledgment the protocol writes the continue
opcode `0x08` repeated six times for every continuation chunk, appends
each fixed-length chunk, stops exactly on the `0x07` acknowledgment,
and returns the first payload followed by all chunks in order. -/
theorem query_multipart_accumulates (c : Command)
    (hcmd : c = .idMeterProp ∨ c = .idMeterSett) :
    ∀ (p0 : List ℕ) (init : List (List ℕ × ℕ)) (last rest : List ℕ)
      (s : SerialState) (fuel : ℕ),
    p0.length = 20 → (∀ p ∈ init, (p.1).length = 20 ∧ p.2 ≠ 0x07) →
    last.length = 20 →
    s.inp = p0 ++ 0x08 :: (contScript init ++ (last ++ 0x07 :: rest)) →
    query (init.length + fuel + 1) c s =
      some (p0 ++ (init.map Prod.fst).flatten ++ last,
        ⟨rest,
          s.log ++ [List.replicate 6 c.opcode] ++
            List.replicate (init.length + 1) (List.replicate 6 0x08),
          s.errorCount⟩) := by
  intro p0 init last rest s fuel hp0 hinit hlast hinp
  have hc : c.numberOfBytes = 20 := by
    rcases hcmd with h | h <;> subst h <;> rfl
  have hp0' : p0.length = c.numberOfBytes := by rw [hc, hp0]
  have h1 := phase1_success c p0 (contScript init ++ (last ++ 0x07 :: rest)) s
    (init.length + fuel) hp0' hinp
  have h2 := phase2_script c hc init last p0 rest
    ⟨contScript init ++ (last ++ 0x07 :: rest),
      s.log ++ [List.replicate 6 c.opcode], s.errorCount⟩ fuel hinit hlast rfl
  rcases hcmd with h | h <;> subst h <;>
    · simp only [Command.opcode] at h1 h2
      simp only [query, h1, Option.some_bind, Command.opcode]
      rw [if_neg (by rintro (h | h) <;> exact Command.noConfusion h)]
      rw [h2]

/-- C10: the single module-level error counter never decreases across
any query; each phase-1 request/acknowledge cycle whose acknowledgment
is not `0x08` increments it by exactly one; and a query acknowledged
with `0x08` on its first cycle leaves it unchanged. -/
theorem error_count_invariant :
    (∀ (fuel : ℕ) (c : Command) (s : SerialState) (r : List ℕ) (s' : SerialState),
      query fuel c s = some (r, s') → s.errorCount ≤ s'.errorCount) ∧
    (∀ (fuel : ℕ) (c : Command) (payload : List ℕ) (a : ℕ) (rest : List ℕ)
      (s : SerialState),
      payload.length = c.numberOfBytes → a ≠ 0x08 → s.inp = payload ++ a :: rest →
      phase1 (fuel + 1) c s =
        phase1 fuel c ⟨rest, s.log ++ [List.replicate 6 c.opcode], s.errorCount + 1⟩) ∧
    ∀ (fuel : ℕ) (c : Command) (payload rest : List ℕ) (s : SerialState)
      (r : List ℕ) (s' : SerialState),
      payload.length = c.numberOfBytes → s.inp = payload ++ 0x08 :: rest →
      query fuel c s = some (r, s') → s'.errorCount = s.errorCount := by
  refine ⟨?_, ?_, ?_⟩
  · intro fuel c s r s' h
    rw [query] at h
    cases hph : phase1 fuel c s with
    | none => rw [hph] at h; simp at h
    | some rs =>
      rw [hph] at h
      simp only [Option.some_bind] at h
      split at h
      · simp only [Option.some.injEq] at h
        rw [h] at hph
        exact phase1_errorCount_le fuel c s r s' hph
      · exact le_trans (phase1_errorCount_le fuel c s rs.1 rs.2 hph)
          (le_of_eq (phase2_errorCount_eq fuel c rs.1 rs.2 r s' h).symm)
  · intro fuel c payload a rest s hlen ha hinp
    exact phase1_failure c payload a rest s fuel hlen ha hinp
  · intro fuel c payload rest s r s' hlen hinp h
    cases fuel with
    | zero => simp [query, phase1] at h
    | succ n =>
      rw [query, phase1_success c payload rest s n hlen hinp] at h
      simp only [Option.some_bind] at h
      split at h
      · simp only [Option.some.injEq, Prod.mk.injEq] at h
        rw [← h.2]
      · exact (phase2_errorCount_eq _ _ _ _ _ _ h).trans rfl

end GM3

/-- C5 witness: a first 20-byte payload, one continuation chunk
acknowledged `0x08`, a final chunk acknowledged `0x07`:
the result is the three chunks concatenated. -/
theorem gm3_query_multipart_witness :
    GM3.query 2 .idMeterProp
      ⟨List.replicate 20 1 ++ 0x08 ::
        (GM3.contScript [(List.replicate 20 2, 0x08)] ++
          (List.replicate 20 3 ++ 0x07 :: [])), [], 5⟩ =
      some (List.replicate 20 1 ++
          ([(List.replicate 20 2, 0x08)].map Prod.fst).flatten ++ List.replicate 20 3,
        ⟨[], [] ++ [List.replicate 6 GM3.Command.idMeterProp.opcode] ++
          List.replicate 2 (List.replicate 6 0x08), 5⟩) :=
  GM3.query_multipart_accumulates .idMeterProp (Or.inl rfl) (List.replicate 20 1)
    [(List.replicate 20 2, 0x08)] (List.replicate 20 3) [] _ 0 (by simp)
    (by simp) (by simp) rfl

/-- C10 witness: an immediately-acknowledged stream query leaves the
counter at 3; a cycle acknowledged `0x09` restarts with the counter
at 4. -/
theorem gm3_error_count_invariant_witness :
    ((3 : ℕ) ≤ 3) ∧
    (GM3.phase1 1 .streamData ⟨List.replicate 30 0 ++ 0x09 :: [], [], 3⟩ =
      GM3.phase1 0 .streamData
        ⟨[], [] ++ [List.replicate 6 GM3.Command.streamData.opcode], 3 + 1⟩) ∧
    (3 : ℕ) = 3 :=
  ⟨GM3.error_count_invariant.1 1 .streamData
      ⟨List.replicate 30 0 ++ 0x08 :: [], [], 3⟩ (List.replicate 30 0)
      ⟨[], [List.replicate 6 3], 3⟩ (by decide),
   GM3.error_count_invariant.2.1 0 .streamData (List.replicate 30 0) 0x09 []
      ⟨List.replicate 30 0 ++ 0x09 :: [], [], 3⟩ rfl (by decide) rfl,
   GM3.error_count_invariant.2.2 1 .streamData (List.replicate 30 0) []
      ⟨List.replicate 30 0 ++ 0x08 :: [], [], 3⟩ (List.replicate 30 0)
      ⟨[], [List.replicate 6 3], 3⟩ rfl rfl (by decide)⟩

/-- C6: the `ch1_voltage_limit` setter rejects 40 V (above the 32 V
maximum) softly, retaining the prior limit and raising nothing; but for
any in-range value (20 V or 5 V) it compares the numeric limit against
the string reply of `CH1:voltage?` (live set voltage 10 V) and raises
`TypeError` — neither the documented soft rejection of 5 V nor the
acceptance of 20 V can happen. -/
theorem spd_ch1_voltage_limit_bug :
    SPD3303X.set_ch1_voltage_limit 40 spdExample = (spdExample, none) ∧
    (SPD3303X.set_ch1_voltage_limit 20 spdExample).2 = some .typeError ∧
    (SPD3303X.set_ch1_voltage_limit 5 spdExample).2 = some .typeError := by
  refine ⟨?_, ?_, ?_⟩ <;>
    simp [SPD3303X.set_ch1_voltage_limit, SPD3303X.queryDev, pyLt, spdExample] <;>
    norm_num

/-- C7: the `ch2_current_limit` setter reads channel 1's live set
current — its only socket traffic is the query `CH1:current?` — and the
comparison against that string reply raises `TypeError`; the
`ch2_voltage_limit` setter likewise raises before its success branch,
which (in the source) assigns `self._ch1_voltage_limit`. -/
theorem spd_ch2_limit_bug :
    (SPD3303X.set_ch2_current_limit 2 spdExample).1.log = ["CH1:current?"] ∧
    (SPD3303X.set_ch2_current_limit 2 spdExample).2 = some .typeError ∧
    (SPD3303X.set_ch2_voltage_limit 20 spdExample).2 = some .typeError := by
  refine ⟨?_, ?_, ?_⟩ <;>
    simp [SPD3303X.set_ch2_current_limit, SPD3303X.set_ch2_voltage_limit,
      SPD3303X.queryDev, pyLt, spdExample] <;>
    norm_num

/-- C8 counterexample: `_command` returns Python `None` both on a
successful send and after a swallowed `OSError` — the caller cannot
distinguish a transport failure from success. -/
theorem spd_command_indistinguishable :
    SPD3303X.commandResult (.ok "") = SPD3303X.commandResult .osError := rfl

/-- C8 (amended): an `OSError` during a protocol exchange is caught and
printed, never re-raised: `_query` returns `None` instead of a reply
string, so its caller can distinguish failure from any successful
exchange, while `_command` returns `None` on success and failure alike,
so its caller cannot. -/
theorem spd_transport_failure_surfacing :
    (∀ reply, SPD3303X.queryResult (.ok reply) ≠ SPD3303X.queryResult .osError) ∧
    ∀ t u, SPD3303X.commandResult t = SPD3303X.commandResult u := by
  constructor
  · intro reply h
    simp [SPD3303X.queryResult] at h
  · intro t u
    cases t <;> cases u <;> rfl

/-- C9: `set_temperature` raises for every new setpoint strictly above
`heater.MAX_temp`, leaving the PID setpoint unchanged, and accepts
every new setpoint at or below it (equality included), storing it. -/
theorem oven_set_temperature_spec (h : Heater) (p : PID) (t : ℚ) :
    (h.MAX_temp < t → Oven.set_temperature h p t = .error .valueError) ∧
    (t ≤ h.MAX_temp → Oven.set_temperature h p t = .ok { p with setpoint := t }) := by
  refine ⟨fun ht => ?_, fun ht => ?_⟩
  · rw [Oven.set_temperature, if_pos ht]
  · rw [Oven.set_temperature, if_neg (not_lt.mpr ht)]

/-- C9 witness: with the default heater (`MAX_temp = 9999`), setting
10000 raises and setting exactly 9999 succeeds. -/
theorem oven_set_temperature_witness :
    Oven.set_temperature ⟨9999, 9999, 9999, 20⟩
        (Oven.configure_pid ⟨9999, 9999, 9999, 20⟩ 32) 10000 = .error .valueError ∧
    Oven.set_temperature ⟨9999, 9999, 9999, 20⟩
        (Oven.configure_pid ⟨9999, 9999, 9999, 20⟩ 32) 9999 =
      .ok { Oven.configure_pid ⟨9999, 9999, 9999, 20⟩ 32 with setpoint := 9999 } :=
  ⟨(oven_set_temperature_spec _ _ _).1 (by norm_num),
   (oven_set_temperature_spec _ _ _).2 (by norm_num)⟩
